import Mathlib

/-!
Shallow embedding of the GroupMeBot repository (src/commands.py, src/bot.py,
src/callback_server.py, src/api.py) and verification of its specification.

Python values flowing through the message-processing path (JSON-decoded
webhook bodies and entries of the commands table) are modelled by the
inductive type `PyVal`.  Fallible Python code is modelled with `Except`:
`PyErr.attributeError` stands for the `AttributeError` raised by calling
`.strip()` on a non-string, `PyErr.typeError` for the `TypeError` raised by
`str.join` on a non-string element.
-/

namespace GroupMeBot

/-- Python/JSON values as they appear after `json.load` / `request.get_json`:
`None`, strings, integers, booleans, lists and dicts (dicts as association
lists with string keys, unique by construction in decoded JSON). -/
inductive PyVal where
  | pyNone : PyVal
  | str : String → PyVal
  | int : Int → PyVal
  | bool : Bool → PyVal
  | list : List PyVal → PyVal
  | dict : List (String × PyVal) → PyVal

/-- Exceptions that the modelled code can raise. -/
inductive PyErr where
  | attributeError : PyErr
  | typeError : PyErr
deriving DecidableEq

/-- Python `d.get(k, default)` on a dict. -/
def dictGet (d : List (String × PyVal)) (k : String) (default : PyVal) : PyVal :=
  (d.lookup k).getD default

/-- Python `d.get(k)` (default `None` omitted): `some v` when the key is
present, `Option.none` when absent. -/
def dictGetOpt (d : List (String × PyVal)) (k : String) : Option PyVal :=
  d.lookup k

/-- `message.get("sender_type") == "bot"`: Python `==` between the looked-up
value (or `None`) and the string literal. -/
def is_bot_sender (message : List (String × PyVal)) : Bool :=
  match dictGet message "sender_type" PyVal.pyNone with
  | PyVal.str s => s == "bot"
  | _ => false

/-- The ASCII whitespace characters removed by Python `str.strip()`. -/
def isPySpace (c : Char) : Bool :=
  c == ' ' || c == '\t' || c == '\n' || c == '\r' ||
    c == '\x0b' || c == '\x0c'

/-- Python `str.strip()`: whitespace removed from both ends. -/
def pyStrip (s : String) : String :=
  ⟨((s.data.dropWhile isPySpace).reverse.dropWhile isPySpace).reverse⟩

/-- A `PyVal` used where `str.join` needs a string: non-strings raise
`TypeError`. -/
def asStr : PyVal → Except PyErr String
  | PyVal.str s => Except.ok s
  | _ => Except.error PyErr.typeError

/-- The traversal underlying `str.join`: every element must be a string. -/
def asStrs : List PyVal → Except PyErr (List String)
  | [] => Except.ok []
  | v :: rest =>
    match asStr v with
    | Except.error e => Except.error e
    | Except.ok s =>
      match asStrs rest with
      | Except.error e => Except.error e
      | Except.ok r => Except.ok (s :: r)

/-- Python `sep.join(vals)`: every element must be a string (`TypeError`
otherwise), the result is the elements interleaved with `sep`. -/
def pyJoin (sep : String) (vals : List PyVal) : Except PyErr String :=
  match asStrs vals with
  | Except.ok strs => Except.ok (String.intercalate sep strs)
  | Except.error e => Except.error e

/-- The list comprehension in `process_message`:
`[item.get("responseLine1", "") for item in response_data if isinstance(item, dict)]`. -/
def lines_of (response_data : List PyVal) : List PyVal :=
  response_data.filterMap fun item =>
    match item with
    | PyVal.dict d => some (dictGet d "responseLine1" (PyVal.str ""))
    | _ => Option.none

instance {ε α : Type} [DecidableEq ε] [DecidableEq α] :
    DecidableEq (Except ε α) := fun a b =>
  match a, b with
  | Except.ok x, Except.ok y =>
    if h : x = y then isTrue (by rw [h])
    else isFalse (by intro he; cases he; exact h rfl)
  | Except.error x, Except.error y =>
    if h : x = y then isTrue (by rw [h])
    else isFalse (by intro he; cases he; exact h rfl)
  | Except.ok _, Except.error _ => isFalse (by intro h; cases h)
  | Except.error _, Except.ok _ => isFalse (by intro h; cases h)

/-- Result of `process_message`: the returned value (or the exception that
escaped) together with the `logger.warning` messages emitted on the way. -/
structure ProcOut where
  ret : Except PyErr (Option String)
  warnings : List String
deriving DecidableEq

/-- The part of `process_message` from `response_data = COMMANDS.get(text)`
(already performed by the caller) to the return.  `COMMANDS.get(text)`
returns Python `None` both when the key is absent (`Option.none` here) and
when the stored value is JSON null (`some PyVal.pyNone` here), so the
`if response_data is None: return None` early return fires silently in both
cases; list values are joined line records, bare strings are returned
unchanged, any other shape logs a format warning and yields `None`. -/
def respond_value (text : String) (response_data : Option PyVal) : ProcOut :=
  match response_data with
  | Option.none => ⟨Except.ok Option.none, []⟩
  | some PyVal.pyNone => ⟨Except.ok Option.none, []⟩
  | some rd =>
    match rd with
    | PyVal.list l =>
      let lines := lines_of l
      if lines.isEmpty then ⟨Except.ok Option.none, []⟩
      else
        match pyJoin "\n" lines with
        | Except.ok s => ⟨Except.ok (some s), []⟩
        | Except.error e => ⟨Except.error e, []⟩
    | PyVal.str s => ⟨Except.ok (some s), []⟩
    | _ => ⟨Except.ok Option.none,
        ["Invalid response format for command " ++ text]⟩

/-- `process_message(message)` from src/commands.py, parameterised by the
active `COMMANDS` table (the module-global read under the lock).  Bot
senders are ignored; the text is fetched with default `""`, stripped
(raising `AttributeError` when the stored value is not a string, e.g. the
`None` the platform sends for attachment-only messages), and looked up
verbatim in the table. -/
def process_message (commands : List (String × PyVal))
    (message : List (String × PyVal)) : ProcOut :=
  if is_bot_sender message then ⟨Except.ok Option.none, []⟩
  else
    match dictGet message "text" (PyVal.str "") with
    | PyVal.str s =>
      let text := pyStrip s
      respond_value text (dictGetOpt commands text)
    | _ => ⟨Except.error PyErr.attributeError, []⟩

/-! ### src/bot.py — `monitor_commands` watcher loop, one tick -/

/-- State carried across ticks of `monitor_commands`: the `last_mtime`
local variable and the global `COMMANDS` table that `update_commands`
swaps in. -/
structure WatcherState where
  last_mtime : Option Nat
  commands : List (String × PyVal)

/-- One iteration of the `while True` loop in `monitor_commands`
(src/bot.py).  `getmtime` is the outcome of `os.path.getmtime` on
commands.json and `load` the outcome of `load_commands()`; any exception is
caught by the `except` clause, which only logs.  The second component
records whether `load_commands` was invoked on this tick. -/
def monitor_tick (getmtime : Except String Nat)
    (load : Except String (List (String × PyVal)))
    (s : WatcherState) : WatcherState × Bool :=
  match getmtime with
  | Except.error _ => (s, false)
  | Except.ok current =>
    if (match s.last_mtime with
        | Option.none => true
        | some lm => decide (lm < current)) then
      match load with
      | Except.error _ => (s, true)
      | Except.ok cmds => (⟨some current, cmds⟩, true)
    else (s, false)

/-! ### src/api.py — outbound payload construction and callback check -/

/-- `create_text_data(bot_id, text)` from src/api.py. -/
def create_text_data (bot_id text : String) : PyVal :=
  PyVal.dict [("bot_id", PyVal.str bot_id), ("text", PyVal.str text)]

/-- `create_image_data(bot_id, img_url)` from src/api.py. -/
def create_image_data (bot_id img_url : String) : PyVal :=
  PyVal.dict [("bot_id", PyVal.str bot_id), ("text", PyVal.str ""),
    ("attachments", PyVal.list
      [PyVal.dict [("type", PyVal.str "image"), ("url", PyVal.str img_url)]])]

/-- Python slicing `s[:n]`. -/
def pySlice (s : String) (n : Nat) : String :=
  ⟨s.data.take n⟩

/-- The payload selection in `post_message` (src/api.py):
`text[:10] == "https://i."` chooses the image-attachment shape, anything
else the plain-text shape.  The chosen dict is the JSON body submitted to
the platform send API. -/
def post_message_payload (bot_id text : String) : PyVal :=
  if pySlice text 10 = "https://i." then create_image_data bot_id text
  else create_text_data bot_id text

/-- Errors surfaced by `check_bot_callback`. -/
inductive CheckErr where
  | requestFailed : CheckErr
  | botNotFound : CheckErr
  | keyError : CheckErr
  | typeError : CheckErr
deriving DecidableEq

/-- The `for bot in bots` search in `check_bot_callback`: the first entry
whose `bot["bot_id"]` compares equal to `bot_id` (Python `==` against a
string is only true for an equal string).  Subscripting a missing key or a
non-dict raises. -/
def find_bot (bots : List PyVal) (bot_id : String) :
    Except CheckErr (Option (List (String × PyVal))) :=
  match bots with
  | [] => Except.ok Option.none
  | b :: rest =>
    match b with
    | PyVal.dict d =>
      (match dictGetOpt d "bot_id" with
       | Option.none => Except.error CheckErr.keyError
       | some (PyVal.str s) =>
         if s = bot_id then Except.ok (some d) else find_bot rest bot_id
       | some _ => find_bot rest bot_id)
    | _ => Except.error CheckErr.typeError

/-- Python dict item assignment `d[k] = v`: replace in place if the key
exists, append otherwise. -/
def set_key (d : List (String × PyVal)) (k : String) (v : PyVal) :
    List (String × PyVal) :=
  if (d.lookup k).isSome then
    d.map (fun p => if p.1 = k then (k, v) else p)
  else d ++ [(k, v)]

/-- Observable outcome of `check_bot_callback`: whether it raised, whether
the mismatch warning was logged, the `update_callback` dict it computed (and
logged), and the bodies of any update POSTs it submitted to the platform
after the initial GET.  In the source the submitting code is commented out,
so no POST is ever issued. -/
structure CheckOut where
  result : Except CheckErr Unit
  warned : Bool
  computed_update : Option (List (String × PyVal))
  submitted : List PyVal

/-- `check_bot_callback(token, bot_id, callback_url)` from src/api.py,
parameterised by the status and decoded body of the `GET /bots` response.
On a 200 it searches for the configured bot; if found with a matching
`callback_url` it just logs, on a mismatch it logs a warning and computes
(but never submits) the corrective update; if absent it raises; on a
non-200 it raises. -/
def check_bot_callback (status : Nat) (bots : List PyVal)
    (bot_id callback_url : String) : CheckOut :=
  if status = 200 then
    match find_bot bots bot_id with
    | Except.error e => ⟨Except.error e, false, Option.none, []⟩
    | Except.ok Option.none =>
      ⟨Except.error CheckErr.botNotFound, false, Option.none, []⟩
    | Except.ok (some d) =>
      if (match dictGetOpt d "callback_url" with
          | some (PyVal.str u) => u == callback_url
          | _ => false) then
        ⟨Except.ok (), false, Option.none, []⟩
      else
        ⟨Except.ok (), true,
          some (set_key d "callback_url" (PyVal.str callback_url)), []⟩
  else ⟨Except.error CheckErr.requestFailed, false, Option.none, []⟩

/-! ### src/callback_server.py — `handle_callback` -/

/-- `handle_callback()` from src/callback_server.py, parameterised by the
outcome of `request.get_json()` (which raises on an unparsable body), the
active commands table, and the outcome `post_message` would produce for a
given response text.  Everything inside the handler body sits under
`try/except Exception`, which logs and falls through; the handler returns
the pair (body, HTTP status).  Note `if response:` is a truthiness test, so
an empty-string response is not sent. -/
def handle_callback (body : Except String (List (String × PyVal)))
    (commands : List (String × PyVal))
    (send : String → Except String Bool) : String × Nat :=
  match body with
  | Except.error _ => ("", 200)
  | Except.ok data =>
    match (process_message commands data).ret with
    | Except.error _ => ("", 200)
    | Except.ok Option.none => ("", 200)
    | Except.ok (some r) =>
      if r = "" then ("", 200)
      else
        match send r with
        | Except.ok _ => ("", 200)
        | Except.error _ => ("", 200)

end GroupMeBot

namespace GroupMeBot

/-! ### Helper lemmas -/

theorem asStrs_map_str (texts : List String) :
    asStrs (texts.map PyVal.str) = Except.ok texts := by
  induction texts with
  | nil => rfl
  | cons t rest ih => simp [asStrs, asStr, ih]

theorem pyJoin_map_str (sep : String) (texts : List String) :
    pyJoin sep (texts.map PyVal.str)
      = Except.ok (String.intercalate sep texts) := by
  unfold pyJoin
  rw [asStrs_map_str]

theorem lines_of_nil_of_no_dict (l : List PyVal)
    (h : ∀ v ∈ l, ∀ d, v ≠ PyVal.dict d) : lines_of l = [] := by
  induction l with
  | nil => rfl
  | cons v rest ih =>
    unfold lines_of
    rw [List.filterMap_cons]
    have hv := h v (List.mem_cons_self v rest)
    have hrest : lines_of rest = [] :=
      ih (fun w hw d => h w (List.mem_cons_of_mem v hw) d)
    cases v with
    | dict d => exact absurd rfl (hv d)
    | pyNone => exact hrest
    | str s => exact hrest
    | int n => exact hrest
    | bool b => exact hrest
    | list m => exact hrest

theorem asStrs_ok_of_all_str (vals : List PyVal)
    (h : ∀ x ∈ vals, ∃ t, x = PyVal.str t) :
    ∃ out, asStrs vals = Except.ok out := by
  induction vals with
  | nil => exact ⟨[], rfl⟩
  | cons v rest ih =>
    obtain ⟨t, ht⟩ := h v (List.mem_cons_self v rest)
    obtain ⟨out, hout⟩ := ih (fun w hw => h w (List.mem_cons_of_mem v hw))
    refine ⟨t :: out, ?_⟩
    subst ht
    simp [asStrs, asStr, hout]

theorem respond_value_list (text : String) (l : List PyVal) :
    respond_value text (some (PyVal.list l))
      = (if (lines_of l).isEmpty then (⟨Except.ok Option.none, []⟩ : ProcOut)
         else
           match pyJoin "\n" (lines_of l) with
           | Except.ok s => ⟨Except.ok (some s), []⟩
           | Except.error e => ⟨Except.error e, []⟩) := rfl

theorem process_message_of_text (commands message : List (String × PyVal))
    (s : String)
    (hbot : is_bot_sender message = false)
    (htext : dictGet message "text" (PyVal.str "") = PyVal.str s) :
    process_message commands message
      = respond_value (pyStrip s) (dictGetOpt commands (pyStrip s)) := by
  unfold process_message
  rw [hbot, htext]
  rfl

/-! ### Claim theorems -/

/-- C1: for every inbound message event whose `sender_type` is `"bot"`,
`process_message` returns `None` regardless of the event's text content; no
response and no warning is ever produced for such an event. -/
theorem C1_bot_sender_yields_none (commands message : List (String × PyVal))
    (h : dictGet message "sender_type" PyVal.pyNone = PyVal.str "bot") :
    process_message commands message = ⟨Except.ok Option.none, []⟩ := by
  have hb : is_bot_sender message = true := by
    unfold is_bot_sender
    rw [h]
    simp
  unfold process_message
  rw [hb]
  rfl

/-- Witness for C1 at a concrete bot-sent event. -/
theorem C1_bot_sender_yields_none_witness :
    dictGet [("sender_type", PyVal.str "bot"), ("text", PyVal.str "!ping")]
        "sender_type" PyVal.pyNone = PyVal.str "bot"
    ∧ process_message
        [("!ping", PyVal.list [PyVal.dict [("responseLine1", PyVal.str "pong")]])]
        [("sender_type", PyVal.str "bot"), ("text", PyVal.str "!ping")]
      = ⟨Except.ok Option.none, []⟩ :=
  ⟨rfl, C1_bot_sender_yields_none _ _ rfl⟩

/-- C2: for every non-bot event carrying a string text, `process_message`
strips surrounding whitespace and the outcome is a function of the active
table's binding at the exact trimmed text only (no prefix matching, no
tokenization, no case-folding); when the trimmed text is absent from the
table the result is `None`. -/
theorem C2_trimmed_exact_lookup (commands message : List (String × PyVal))
    (s : String)
    (hbot : is_bot_sender message = false)
    (htext : dictGet message "text" (PyVal.str "") = PyVal.str s) :
    process_message commands message
      = respond_value (pyStrip s) (dictGetOpt commands (pyStrip s))
    ∧ (∀ commands2 : List (String × PyVal),
        dictGetOpt commands2 (pyStrip s) = dictGetOpt commands (pyStrip s) →
        process_message commands2 message = process_message commands message)
    ∧ (dictGetOpt commands (pyStrip s) = Option.none →
        process_message commands message = ⟨Except.ok Option.none, []⟩) := by
  refine ⟨process_message_of_text commands message s hbot htext, ?_, ?_⟩
  · intro commands2 hsame
    rw [process_message_of_text commands2 message s hbot htext,
      process_message_of_text commands message s hbot htext, hsame]
  · intro habsent
    rw [process_message_of_text commands message s hbot htext, habsent]
    rfl

/-- Witness for C2 at a concrete non-bot event whose trimmed text is not in
the table. -/
theorem C2_trimmed_exact_lookup_witness :
    is_bot_sender [("sender_type", PyVal.str "user"),
        ("text", PyVal.str " !nope ")] = false
    ∧ dictGet [("sender_type", PyVal.str "user"), ("text", PyVal.str " !nope ")]
        "text" (PyVal.str "") = PyVal.str " !nope "
    ∧ process_message
        [("!ping", PyVal.list [PyVal.dict [("responseLine1", PyVal.str "pong")]])]
        [("sender_type", PyVal.str "user"), ("text", PyVal.str " !nope ")]
      = ⟨Except.ok Option.none, []⟩ :=
  ⟨rfl, rfl,
    (C2_trimmed_exact_lookup
      [("!ping", PyVal.list [PyVal.dict [("responseLine1", PyVal.str "pong")]])]
      [("sender_type", PyVal.str "user"), ("text", PyVal.str " !nope ")]
      " !nope " rfl rfl).2.2 rfl⟩

/-- C3: for every non-bot event whose trimmed text maps in the active
table to a list of response-line records (dicts whose `responseLine1`
display values are the given strings), `process_message` returns the display
texts joined by newline; when the resulting sequence of lines is empty the
result is `None`, not the empty string. -/
theorem C3_join_display_texts (commands message : List (String × PyVal))
    (s : String) (l : List PyVal) (texts : List String)
    (hbot : is_bot_sender message = false)
    (htext : dictGet message "text" (PyVal.str "") = PyVal.str s)
    (hlook : dictGetOpt commands (pyStrip s) = some (PyVal.list l))
    (_hrec : ∀ v ∈ l, ∃ d, v = PyVal.dict d)
    (hdisp : lines_of l = texts.map PyVal.str) :
    (process_message commands message).ret
      = Except.ok (if texts.isEmpty then Option.none
          else some (String.intercalate "\n" texts)) := by
  rw [process_message_of_text commands message s hbot htext, hlook,
    respond_value_list, hdisp]
  cases texts with
  | nil => rfl
  | cons t rest =>
    rw [pyJoin_map_str]
    rfl

/-- Witness for C3: Scenario B of the spec, a two-line command. -/
theorem C3_join_display_texts_witness :
    (process_message
        [("!info", PyVal.list [PyVal.dict [("responseLine1", PyVal.str "line1")],
            PyVal.dict [("responseLine1", PyVal.str "line2")]])]
        [("sender_type", PyVal.str "user"), ("text", PyVal.str "!info")]).ret
      = Except.ok (if ["line1", "line2"].isEmpty then Option.none
          else some (String.intercalate "\n" ["line1", "line2"])) :=
  C3_join_display_texts
    [("!info", PyVal.list [PyVal.dict [("responseLine1", PyVal.str "line1")],
        PyVal.dict [("responseLine1", PyVal.str "line2")]])]
    [("sender_type", PyVal.str "user"), ("text", PyVal.str "!info")]
    "!info"
    [PyVal.dict [("responseLine1", PyVal.str "line1")],
      PyVal.dict [("responseLine1", PyVal.str "line2")]]
    ["line1", "line2"] rfl rfl rfl
    (by intro v hv
        simp only [List.mem_cons, List.not_mem_nil, or_false] at hv
        rcases hv with h | h
        · exact ⟨_, h⟩
        · exact ⟨_, h⟩)
    rfl

/-- C5: on a watcher tick where loading the command file fails (parse error,
or a missing file making `getmtime` or `load_commands` fail), the active
table and the last-applied timestamp are both unchanged, every lookup into
the table is unchanged, and a tick that attempted the load will attempt it
again from the resulting state on the next tick with the same file. -/
theorem C5_failed_reload_keeps_state (mt : Except String Nat) (e : String)
    (s : WatcherState) :
    (monitor_tick mt (Except.error e) s).1 = s
    ∧ (∀ k, dictGetOpt (monitor_tick mt (Except.error e) s).1.commands k
        = dictGetOpt s.commands k)
    ∧ ((monitor_tick mt (Except.error e) s).2 = true →
        (monitor_tick mt (Except.error e)
          (monitor_tick mt (Except.error e) s).1).2 = true) := by
  have hstate : (monitor_tick mt (Except.error e) s).1 = s := by
    unfold monitor_tick
    split
    · rfl
    · split <;> rfl
  refine ⟨hstate, fun k => by rw [hstate], fun h => by rwa [hstate]⟩

/-- Witness for C5 at a concrete failing load over a one-command table. -/
theorem C5_failed_reload_keeps_state_witness :
    (monitor_tick (Except.ok 7) (Except.error "malformed json")
        ⟨some 3, [("!ping", PyVal.str "pong")]⟩).1
      = ⟨some 3, [("!ping", PyVal.str "pong")]⟩
    ∧ (monitor_tick (Except.ok 7) (Except.error "malformed json")
          (monitor_tick (Except.ok 7) (Except.error "malformed json")
            ⟨some 3, [("!ping", PyVal.str "pong")]⟩).1).2 = true :=
  ⟨(C5_failed_reload_keeps_state (Except.ok 7) "malformed json"
      ⟨some 3, [("!ping", PyVal.str "pong")]⟩).1,
   (C5_failed_reload_keeps_state (Except.ok 7) "malformed json"
      ⟨some 3, [("!ping", PyVal.str "pong")]⟩).2.2 rfl⟩

/-- C7: the callback endpoint replies with an empty body and status 200 for
every combination of body-parse outcome, message-resolution outcome
(including a raised exception) and outbound-send outcome; no internal
exception reaches the transport layer. -/
theorem C7_callback_always_acknowledges
    (body : Except String (List (String × PyVal)))
    (commands : List (String × PyVal))
    (send : String → Except String Bool) :
    handle_callback body commands send = ("", 200) := by
  unfold handle_callback
  cases body with
  | error m => rfl
  | ok data =>
    cases hret : (process_message commands data).ret with
    | error e => simp only [hret]
    | ok r =>
      cases r with
      | none => simp only [hret]
      | some t =>
        simp only [hret]
        by_cases ht : t = ""
        · simp only [if_pos ht]
        · simp only [if_neg ht]
          cases send t <;> rfl

/-- C9: for every non-bot message whose "text" key is present but maps to
`None` (as the platform sends for attachment-only messages),
`process_message` raises (`AttributeError` from `None.strip()`) instead of
returning `None`: the default in `message.get("text", "")` only covers a
missing key. -/
theorem C9_null_text_raises (commands message : List (String × PyVal))
    (hbot : is_bot_sender message = false)
    (htext : dictGetOpt message "text" = some PyVal.pyNone) :
    (process_message commands message).ret
      = Except.error PyErr.attributeError := by
  have hget : dictGet message "text" (PyVal.str "") = PyVal.pyNone := by
    unfold dictGet
    unfold dictGetOpt at htext
    rw [htext]
    rfl
  unfold process_message
  rw [hbot, hget]
  rfl

/-- Witness for C9 at a concrete attachment-only message. -/
theorem C9_null_text_raises_witness :
    (process_message [("!ping", PyVal.str "pong")]
        [("sender_type", PyVal.str "user"), ("text", PyVal.pyNone)]).ret
      = Except.error PyErr.attributeError :=
  C9_null_text_raises [("!ping", PyVal.str "pong")]
    [("sender_type", PyVal.str "user"), ("text", PyVal.pyNone)] rfl rfl

/-- C4 counterexample: the claim fails twice on the code.  A stored list
containing a record whose `responseLine1` is the integer 5 makes
`"\n".join` raise `TypeError`, which escapes `process_message`, refuting
"no exception escapes for any stored value shape"; and a stored JSON null —
a value that is neither a list nor a bare string — is swallowed by the
`if response_data is None` early return, so `None` comes back with no
format warning logged, refuting "logs a format warning" for that shape. -/
theorem C4_counterexample_claim_false :
    (process_message
        [("!x", PyVal.list [PyVal.dict [("responseLine1", PyVal.int 5)]])]
        [("sender_type", PyVal.str "user"), ("text", PyVal.str "!x")]).ret
      = Except.error PyErr.typeError
    ∧ process_message [("!n", PyVal.pyNone)]
        [("sender_type", PyVal.str "user"), ("text", PyVal.str "!n")]
      = ⟨Except.ok Option.none, []⟩ := ⟨rfl, rfl⟩

/-- C4 (amended): for every non-bot event whose trimmed text maps in the
active table to a value that is neither a list, nor a bare string, nor JSON
null, `process_message` logs a format warning and returns `None`; a stored
null is indistinguishable from an absent key through `dict.get` and returns
`None` silently with no warning; and no exception escapes `process_message`
for any stored value shape except when a stored list contains a dict whose
`responseLine1` value is a non-string, in which case joining the lines
raises `TypeError`. -/
theorem C4_amended_format_warning (commands message : List (String × PyVal))
    (s : String) (v : PyVal)
    (hbot : is_bot_sender message = false)
    (htext : dictGet message "text" (PyVal.str "") = PyVal.str s)
    (hlook : dictGetOpt commands (pyStrip s) = some v) :
    ((∀ l, v ≠ PyVal.list l) → (∀ t, v ≠ PyVal.str t) → v ≠ PyVal.pyNone →
      process_message commands message
        = ⟨Except.ok Option.none,
            ["Invalid response format for command " ++ pyStrip s]⟩)
    ∧ (v = PyVal.pyNone →
        process_message commands message = ⟨Except.ok Option.none, []⟩)
    ∧ ((∀ l, v = PyVal.list l →
          ∀ item ∈ l, ∀ d, item = PyVal.dict d →
            ∃ t, dictGet d "responseLine1" (PyVal.str "") = PyVal.str t) →
        ∃ r, (process_message commands message).ret = Except.ok r) := by
  have hpm := process_message_of_text commands message s hbot htext
  refine ⟨?_, ?_, ?_⟩
  · intro hnl hns hnn
    rw [hpm, hlook]
    cases v with
    | list l => exact absurd rfl (hnl l)
    | str t => exact absurd rfl (hns t)
    | pyNone => exact absurd rfl hnn
    | int n => rfl
    | bool b => rfl
    | dict d => rfl
  · intro hnull
    subst hnull
    rw [hpm, hlook]
    rfl
  · intro hsafe
    rw [hpm, hlook]
    cases v with
    | str t => exact ⟨some t, rfl⟩
    | pyNone => exact ⟨Option.none, rfl⟩
    | int n => exact ⟨Option.none, rfl⟩
    | bool b => exact ⟨Option.none, rfl⟩
    | dict d => exact ⟨Option.none, rfl⟩
    | list l =>
      have hstr : ∀ x ∈ lines_of l, ∃ t, x = PyVal.str t := by
        intro x hx
        unfold lines_of at hx
        rw [List.mem_filterMap] at hx
        obtain ⟨item, hitem, hmap⟩ := hx
        cases item with
        | dict d =>
          obtain ⟨t, ht⟩ := hsafe l rfl (PyVal.dict d) hitem d rfl
          exact ⟨t, by rw [← Option.some.inj hmap]; exact ht⟩
        | pyNone => simp at hmap
        | str u => simp at hmap
        | int n => simp at hmap
        | bool b => simp at hmap
        | list m => simp at hmap
      obtain ⟨out, hout⟩ := asStrs_ok_of_all_str (lines_of l) hstr
      rw [respond_value_list]
      by_cases he : (lines_of l).isEmpty = true
      · rw [if_pos he]
        exact ⟨Option.none, rfl⟩
      · rw [if_neg he]
        unfold pyJoin
        rw [hout]
        exact ⟨some (String.intercalate "\n" out), rfl⟩

/-- Witness for the amended C4: a boolean stored value is warned about and
yields `None`, a stored null yields `None` silently, and a well-formed list
raises nothing. -/
theorem C4_amended_format_warning_witness :
    process_message [("!bad", PyVal.bool true)]
        [("sender_type", PyVal.str "user"), ("text", PyVal.str "!bad")]
      = ⟨Except.ok Option.none, ["Invalid response format for command !bad"]⟩
    ∧ process_message [("!n", PyVal.pyNone)]
        [("sender_type", PyVal.str "user"), ("text", PyVal.str "!n")]
      = ⟨Except.ok Option.none, []⟩
    ∧ ∃ r, (process_message
        [("!ok", PyVal.list [PyVal.dict [("responseLine1", PyVal.str "hi")]])]
        [("sender_type", PyVal.str "user"), ("text", PyVal.str "!ok")]).ret
      = Except.ok r :=
  ⟨(C4_amended_format_warning [("!bad", PyVal.bool true)]
      [("sender_type", PyVal.str "user"), ("text", PyVal.str "!bad")]
      "!bad" (PyVal.bool true) rfl rfl rfl).1
      (fun l h => PyVal.noConfusion h) (fun t h => PyVal.noConfusion h)
      (fun h => PyVal.noConfusion h),
   (C4_amended_format_warning [("!n", PyVal.pyNone)]
      [("sender_type", PyVal.str "user"), ("text", PyVal.str "!n")]
      "!n" PyVal.pyNone rfl rfl rfl).2.1 rfl,
   (C4_amended_format_warning
      [("!ok", PyVal.list [PyVal.dict [("responseLine1", PyVal.str "hi")]])]
      [("sender_type", PyVal.str "user"), ("text", PyVal.str "!ok")]
      "!ok" (PyVal.list [PyVal.dict [("responseLine1", PyVal.str "hi")]])
      rfl rfl rfl).2.2
      (by
        intro l hl item hitem d hd
        rw [← PyVal.list.inj hl, List.mem_singleton] at hitem
        subst hitem
        exact ⟨"hi", by rw [← PyVal.dict.inj hd]; rfl⟩)⟩

/-- C6: for every call to the outbound dispatcher with response text `t`,
if `t` begins with the literal prefix "https://i." the submitted payload is
the image shape with empty body text and exactly one attachment of type
"image" whose url is `t`; otherwise it is the plain-text shape with no
attachments. -/
theorem C6_payload_shape (bot_id text : String) :
    ("https://i.".data.isPrefixOf text.data = true →
      post_message_payload bot_id text
        = PyVal.dict [("bot_id", PyVal.str bot_id), ("text", PyVal.str ""),
            ("attachments", PyVal.list
              [PyVal.dict [("type", PyVal.str "image"),
                ("url", PyVal.str text)]])])
    ∧ ("https://i.".data.isPrefixOf text.data = false →
      post_message_payload bot_id text
        = PyVal.dict [("bot_id", PyVal.str bot_id), ("text", PyVal.str text)]) := by
  have hlen : ("https://i." : String).data.length = 10 := rfl
  have key : (pySlice text 10 = ("https://i." : String))
      ↔ "https://i.".data.isPrefixOf text.data = true := by
    rw [List.isPrefixOf_iff_prefix, List.prefix_iff_eq_take, hlen]
    unfold pySlice
    constructor
    · intro h
      exact (congrArg String.data h).symm
    · intro h
      exact congrArg String.mk h.symm
  constructor
  · intro h
    unfold post_message_payload
    rw [if_pos (key.mpr h)]
    rfl
  · intro h
    unfold post_message_payload
    rw [if_neg (fun hc => by
      have hc2 := key.mp hc
      rw [h] at hc2
      exact Bool.noConfusion hc2)]
    rfl

/-- Witness for C6: Scenario D image URL and a plain text. -/
theorem C6_payload_shape_witness :
    post_message_payload "B1" "https://i.example.com/x.png"
      = PyVal.dict [("bot_id", PyVal.str "B1"), ("text", PyVal.str ""),
          ("attachments", PyVal.list
            [PyVal.dict [("type", PyVal.str "image"),
              ("url", PyVal.str "https://i.example.com/x.png")]])]
    ∧ post_message_payload "B1" "hello there"
      = PyVal.dict [("bot_id", PyVal.str "B1"), ("text", PyVal.str "hello there")] :=
  ⟨(C6_payload_shape "B1" "https://i.example.com/x.png").1 rfl,
   (C6_payload_shape "B1" "hello there").2 rfl⟩

/-- C8: when `check_bot_callback` gets a 200 bots listing containing the
configured bot with a callback URL that does not match the expected one, it
logs a warning and computes the corrective update (the bot dict with
`callback_url` reassigned) without raising — and it never submits any update
POST to the platform, for this or any other input. -/
theorem C8_mismatch_warn_no_submit (status : Nat) (bots : List PyVal)
    (bot_id callback_url : String) (d : List (String × PyVal))
    (hs : status = 200)
    (hf : find_bot bots bot_id = Except.ok (some d))
    (hm : (match dictGetOpt d "callback_url" with
        | some (PyVal.str u) => u == callback_url
        | _ => false) = false) :
    check_bot_callback status bots bot_id callback_url
      = ⟨Except.ok (), true,
          some (set_key d "callback_url" (PyVal.str callback_url)), []⟩
    ∧ (∀ st bs, (check_bot_callback st bs bot_id callback_url).submitted = []) := by
  subst hs
  constructor
  · unfold check_bot_callback
    rw [if_pos rfl, hf]
    simp only [hm]
    rfl
  · intro st bs
    unfold check_bot_callback
    repeat first | rfl | split

/-- Witness for C8 at a concrete mismatching registration. -/
theorem C8_mismatch_warn_no_submit_witness :
    check_bot_callback 200
        [PyVal.dict [("bot_id", PyVal.str "B1"),
          ("callback_url", PyVal.str "https://old.example/cb")]]
        "B1" "https://new.example/cb"
      = ⟨Except.ok (), true,
          some [("bot_id", PyVal.str "B1"),
            ("callback_url", PyVal.str "https://new.example/cb")], []⟩ :=
  (C8_mismatch_warn_no_submit 200
    [PyVal.dict [("bot_id", PyVal.str "B1"),
      ("callback_url", PyVal.str "https://old.example/cb")]]
    "B1" "https://new.example/cb"
    [("bot_id", PyVal.str "B1"),
      ("callback_url", PyVal.str "https://old.example/cb")]
    rfl rfl rfl).1

/-- C10: a trimmed text mapping to a non-empty list of dicts lacking
`responseLine1` yields a response of empty lines (for a single such record,
the empty string, which is a response rather than `None`); list elements
that are not dicts are skipped by the line extraction; and a non-empty list
containing only non-dict elements yields `None`. -/
theorem C10_missing_field_and_nondict (commands message : List (String × PyVal))
    (s : String)
    (hbot : is_bot_sender message = false)
    (htext : dictGet message "text" (PyVal.str "") = PyVal.str s) :
    (∀ d, dictGetOpt commands (pyStrip s) = some (PyVal.list [PyVal.dict d]) →
        d.lookup "responseLine1" = Option.none →
        (process_message commands message).ret = Except.ok (some ""))
    ∧ (∀ l, dictGetOpt commands (pyStrip s) = some (PyVal.list l) → l ≠ [] →
        (∀ v ∈ l, ∀ d, v ≠ PyVal.dict d) →
        (process_message commands message).ret = Except.ok Option.none)
    ∧ (∀ v rest, (∀ d, v ≠ PyVal.dict d) →
        lines_of (v :: rest) = lines_of rest) := by
  have hpm := process_message_of_text commands message s hbot htext
  refine ⟨?_, ?_, ?_⟩
  · intro d hlook hmiss
    have hget : dictGet d "responseLine1" (PyVal.str "") = PyVal.str "" := by
      unfold dictGet
      rw [hmiss]
      rfl
    have hl : lines_of [PyVal.dict d]
        = [dictGet d "responseLine1" (PyVal.str "")] := rfl
    rw [hpm, hlook, respond_value_list, hl, hget]
    rfl
  · intro l hlook hne hnd
    rw [hpm, hlook, respond_value_list, lines_of_nil_of_no_dict l hnd]
    rfl
  · intro v rest hv
    unfold lines_of
    rw [List.filterMap_cons]
    cases v with
    | dict d => exact absurd rfl (hv d)
    | pyNone => rfl
    | str t => rfl
    | int n => rfl
    | bool b => rfl
    | list m => rfl

/-- Witness for C10: one record lacking the field gives the empty-string
response; a list holding only a bare string gives `None`. -/
theorem C10_missing_field_and_nondict_witness :
    (process_message [("!a", PyVal.list [PyVal.dict [("x", PyVal.str "y")]])]
        [("text", PyVal.str "!a")]).ret = Except.ok (some "")
    ∧ (process_message [("!b", PyVal.list [PyVal.str "hi"])]
        [("text", PyVal.str "!b")]).ret = Except.ok Option.none :=
  ⟨(C10_missing_field_and_nondict
      [("!a", PyVal.list [PyVal.dict [("x", PyVal.str "y")]])]
      [("text", PyVal.str "!a")] "!a" rfl rfl).1
      [("x", PyVal.str "y")] rfl rfl,
   (C10_missing_field_and_nondict [("!b", PyVal.list [PyVal.str "hi"])]
      [("text", PyVal.str "!b")] "!b" rfl rfl).2.1
      [PyVal.str "hi"] rfl (List.cons_ne_nil _ _)
      (by
        intro v hv d h
        rw [List.mem_singleton] at hv
        subst hv
        exact PyVal.noConfusion h)⟩

end GroupMeBot
